import Mathlib

/-!
# WAR estruturado: combat round and mission checks

A shallow embedding of the combat and mission functions of `war.c`
(`simular_batalha`, `verificar_destruir_verde`,
`contar_territorios_conquistados`, `contar_conquistados_por`,
`verificar_missao` and the attack step of `nivel_mestre`), followed by the
properties proved about them.

Conventions of the embedding

* A C `int` is an `Int`; every `-= 1` of the source goes through `wrap_int`,
  the two's complement reading of a 32-bit result, and the theorems assume the
  stored values are representable (`int_range`).
* A C string (`char nome[MAX_NOME]`, `char cor[MAX_COR]`) is the list of its
  character codes up to, not including, the terminating NUL.
* An array with its length (`const Territorio *lista, int n`) is a `List`.
* `printf` output is not modelled; the two `rand()` draws of
  `simular_batalha` are inputs.
-/

namespace War

/-! ## Data model -/

/-- Size of the `nome` buffer (`#define MAX_NOME 30`). -/
def MAX_NOME : Nat := 30

/-- Size of the `cor` buffer (`#define MAX_COR 15`). -/
def MAX_COR : Nat := 15

/-- Number of territories of every level (`#define QTD_PADRAO 5`). -/
def QTD_PADRAO : Nat := 5

/-- Smallest value of a 32-bit C `int`. -/
def INT_MIN : Int := -2147483648

/-- Largest value of a 32-bit C `int`. -/
def INT_MAX : Int := 2147483647

/-- Character code of a C `char`, read as an unsigned byte. -/
abbrev CChar := Nat

/-- Contents of a NUL-terminated C string, terminator excluded. -/
abbrev CString := List CChar

/-- Record `Territorio` of the source: name, army colour, troop count, owner id. The
buffers bound the strings (`nome` shorter than `MAX_NOME`, `cor` shorter than `MAX_COR`)
and the two `int` fields lie between `INT_MIN` and `INT_MAX`; theorems that depend on
these bounds state them. -/
structure Territorio where
  nome : CString
  cor : CString
  tropas : Int
  conquistado_por : Int
  deriving DecidableEq, Repr

/-- Representable as a 32-bit C `int`. -/
def int_range (x : Int) : Prop := INT_MIN ≤ x ∧ x ≤ INT_MAX

instance (x : Int) : Decidable (int_range x) := by
  unfold int_range; infer_instance

/-- Two's complement value of a 32-bit `int` computation whose exact result is `x`. -/
def wrap_int (x : Int) : Int := (x + 2147483648) % 4294967296 - 2147483648

/-! ## Combat round -/

/-- One die, `(rand() % 6) + 1`, from the value `r` returned by `rand()`. -/
def rolar_dado (r : Nat) : Int := (r % 6 : Nat) + 1

/-- What a call of `simular_batalha` leaves behind: the two territories it was handed
by pointer and the returned `int`. -/
structure Batalha where
  atacante : Territorio
  defensor : Territorio
  retorno : Int
  deriving DecidableEq, Repr

/-- Function `simular_batalha` of the source, after the two dice `d_atk` and `d_def`
have been drawn. The two pointers are distinct territories (both callers reject
`idx_atk == idx_def`). -/
def simular_batalha (atacante defensor : Territorio) (d_atk d_def : Int) : Batalha :=
  if d_atk ≥ d_def then
    -- defensor->tropas -= 1; if (defensor->tropas < 0) defensor->tropas = 0;
    let t1 := wrap_int (defensor.tropas - 1)
    let t2 := if t1 < 0 then 0 else t1
    if t2 = 0 then
      if atacante.tropas > 1 then
        { atacante := { atacante with tropas := wrap_int (atacante.tropas - 1) }
          defensor := { defensor with tropas := 1 }
          retorno := 1 }
      else
        { atacante := atacante
          defensor := { defensor with tropas := 0 }
          retorno := 1 }
    else
      { atacante := atacante
        defensor := { defensor with tropas := t2 }
        retorno := 0 }
  else
    -- atacante->tropas -= 1; if (atacante->tropas < 0) atacante->tropas = 0;
    let t1 := wrap_int (atacante.tropas - 1)
    let t2 := if t1 < 0 then 0 else t1
    { atacante := { atacante with tropas := t2 }
      defensor := defensor
      retorno := 0 }

/-- Function `simular_batalha` with its two `rand()` draws `r_atk`, `r_def` as inputs. -/
def simular_batalha_rand (atacante defensor : Territorio) (r_atk r_def : Nat) : Batalha :=
  simular_batalha atacante defensor (rolar_dado r_atk) (rolar_dado r_def)

/-! ## C library functions used by the mission checks -/

/-- C `tolower` in the "C" locale (the program never calls `setlocale`), followed by the
cast back to `char`: the letters `A`..`Z` map to `a`..`z`, every other byte is unchanged. -/
def tolower (c : CChar) : CChar := if 65 ≤ c ∧ c ≤ 90 then c + 32 else c

/-- String held by `dest` after `strncpy(dest, src, n); dest[n] = 0`: the first
`n` characters of `src`. -/
def strncpy (src : CString) (n : Nat) : CString := src.take n

/-- C `strstr(haystack, needle)`: offset of the first occurrence of `needle` in
`haystack`, `none` for the `NULL` result. An empty needle is found at offset 0. -/
def strstr : CString → CString → Option Nat
  | [], needle => if needle = [] then some 0 else none
  | c :: cs, needle =>
    if needle.isPrefixOf (c :: cs) then some 0
    else (strstr cs needle).map (· + 1)

/-- The string literal `"verde"`. -/
def verde : CString := [118, 101, 114, 100, 101]

/-! ## Missions -/

/-- Enumeration `MissaoTipo` of the source. -/
inductive MissaoTipo where
  | MISS_NENHUMA
  | MISS_DESTRUIR_VERDE
  | MISS_CONQUISTAR_3
  deriving DecidableEq, Repr

/-- Function `verificar_destruir_verde` of the source over `lista[0..n)`: 0 at the first
territory whose lower-cased colour contains `"verde"` and whose troops are positive,
1 when the loop runs to its end. -/
def verificar_destruir_verde : List Territorio → Int
  | [] => 1
  | t :: resto =>
    let tmp := (strncpy t.cor (MAX_COR - 1)).map tolower
    if (strstr tmp verde).isSome then
      if t.tropas > 0 then 0 else verificar_destruir_verde resto
    else verificar_destruir_verde resto

/-- Function `contar_territorios_conquistados` of the source: the counter `cnt` run over
`lista[0..n)`. The counter never exceeds `n`, so it does not overflow. -/
def contar_territorios_conquistados (lista : List Territorio) : Int :=
  lista.foldl (fun cnt t => if t.tropas > 0 then cnt + 1 else cnt) 0

/-- Function `contar_conquistados_por` of the source: counts the territories with
`strstr(lista[i].cor, cor) != NULL && lista[i].tropas > 0`. -/
def contar_conquistados_por (lista : List Territorio) (cor : CString) : Int :=
  lista.foldl
    (fun cnt t => if (strstr t.cor cor).isSome ∧ t.tropas > 0 then cnt + 1 else cnt) 0

/-- Function `verificar_missao` of the source. -/
def verificar_missao (lista : List Territorio) (missao : MissaoTipo) : Int :=
  if missao = MissaoTipo.MISS_DESTRUIR_VERDE then
    verificar_destruir_verde lista
  else if missao = MissaoTipo.MISS_CONQUISTAR_3 then
    let cont : Int := lista.foldl (fun cont t => if t.tropas > 0 then cont + 1 else cont) 0
    if cont ≥ 3 then 1 else 0
  else 0

/-- Option 1 (attack) of the menu loop of `nivel_mestre`, with the two indices already
decremented (`ler_inteiro(...) - 1`) and the two dice as inputs; `n` is the length of the
registry (`QTD_PADRAO` in the source). A rejected request (`continue`) leaves the registry
as it was. -/
def nivel_mestre_atacar (lista : List Territorio) (idx_atk idx_def : Int)
    (d_atk d_def : Int) : List Territorio :=
  let n : Int := lista.length
  if idx_atk < 0 ∨ idx_atk ≥ n ∨ idx_def < 0 ∨ idx_def ≥ n then lista
  else if idx_atk = idx_def then lista
  else
    match lista[idx_atk.toNat]?, lista[idx_def.toNat]? with
    | some atacante, some defensor =>
      if atacante.tropas ≤ 0 then lista
      else
        let r := simular_batalha atacante defensor d_atk d_def
        let lista1 := (lista.set idx_atk.toNat r.atacante).set idx_def.toNat r.defensor
        if r.retorno ≠ 0 then
          lista1.set idx_def.toNat
            { r.defensor with cor := strncpy r.atacante.cor (MAX_COR - 1) }
        else lista1
    | _, _ => lista

/-! ## Vocabulary of the specification -/

/-- Two characters are equal when ASCII letter case is ignored. -/
def eq_sem_caixa (x y : CChar) : Prop :=
  x = y ∨ (65 ≤ x ∧ x ≤ 90 ∧ y = x + 32) ∨ (65 ≤ y ∧ y ≤ 90 ∧ x = y + 32)

instance : DecidableRel eq_sem_caixa := fun x y => by
  unfold eq_sem_caixa; infer_instance

/-- The string `sub` occurs in `s` at offset `i`, characters compared with `r`. -/
def ocorre_em (r : CChar → CChar → Prop) (sub s : CString) (i : Nat) : Prop :=
  i + sub.length ≤ s.length ∧ ∀ k, k < sub.length → r (s.getD (i + k) 0) (sub.getD k 0)

instance (r : CChar → CChar → Prop) [DecidableRel r] (sub s : CString) (i : Nat) :
    Decidable (ocorre_em r sub s i) := by
  unfold ocorre_em; infer_instance

/-- The string `s` contains `sub` as a substring, compared exactly. -/
def contem (s sub : CString) : Prop :=
  ∃ i, i ≤ s.length ∧ ocorre_em (fun x y => x = y) sub s i

instance (s sub : CString) : Decidable (contem s sub) := by
  unfold contem; infer_instance

/-- The string `s` contains `sub` as a substring, compared ignoring letter case. -/
def contem_sem_caixa (s sub : CString) : Prop :=
  ∃ i, i ≤ s.length ∧ ocorre_em eq_sem_caixa sub s i

instance (s sub : CString) : Decidable (contem_sem_caixa s sub) := by
  unfold contem_sem_caixa; infer_instance

/-- Number of territories of the registry that hold troops. -/
def com_tropas (lista : List Territorio) : Nat :=
  lista.countP (fun t => decide (t.tropas > 0))

/-- Codes of the characters of an ASCII string literal. -/
def ascii (s : String) : CString := s.toList.map Char.toNat

/-- A territory with the given name, colour and troops, unowned as
`inicializar_automatico` leaves it (`conquistado_por = -1`). -/
def territorio (nome cor : String) (tropas : Int) : Territorio :=
  { nome := ascii nome, cor := ascii cor, tropas := tropas, conquistado_por := -1 }

/-- Number of troop-holding territories whose colour contains `cor`, compared exactly. -/
def com_tropas_da_cor (lista : List Territorio) (cor : CString) : Nat :=
  lista.countP (fun t => decide (t.tropas > 0 ∧ contem t.cor cor))

/-- Number of troop-holding territories whose colour contains `cor`, compared ignoring
letter case. -/
def com_tropas_da_cor_sem_caixa (lista : List Territorio) (cor : CString) : Nat :=
  lista.countP (fun t => decide (t.tropas > 0 ∧ contem_sem_caixa t.cor cor))

/-! ## Demo registry -/

/-- Table `nomes` of `inicializar_automatico` (the third name is UTF-8 encoded). -/
def nomes : List CString :=
  [ascii "Aldea", ascii "Montanha", ascii "Plan" ++ [195, 173] ++ ascii "cie",
    ascii "Fortaleza", ascii "Vale"]

/-- Table `cores` of `inicializar_automatico`. -/
def cores : List CString :=
  [ascii "Verde", ascii "Vermelho", ascii "Azul", ascii "Amarelo", ascii "Verde"]

/-- Table `tropas_iniciais` of `inicializar_automatico`. -/
def tropas_iniciais : List Int := [3, 4, 2, 5, 1]

/-- Function `inicializar_automatico` of the source: the `n` territories it writes. -/
def inicializar_automatico (n : Nat) : List Territorio :=
  (List.range n).map fun i =>
    { nome := strncpy (nomes.getD (i % QTD_PADRAO) []) (MAX_NOME - 1)
      cor := strncpy (cores.getD (i % QTD_PADRAO) []) (MAX_COR - 1)
      tropas := tropas_iniciais.getD (i % QTD_PADRAO) 0
      conquistado_por := -1 }

/-! ## Shared lemmas -/

theorem wrap_int_of_range {x : Int} (h : int_range x) : wrap_int x = x := by
  unfold int_range INT_MIN INT_MAX at h
  unfold wrap_int
  omega

theorem rolar_dado_range (r : Nat) : 1 ≤ rolar_dado r ∧ rolar_dado r ≤ 6 := by
  unfold rolar_dado
  omega

/-- Attacker-win branch with the arithmetic carried out, for a defender whose
decrement does not overflow. -/
theorem simular_batalha_vence (a d : Territorio) (d_atk d_def : Int) (hr : d_atk ≥ d_def)
    (hd : INT_MIN < d.tropas ∧ d.tropas ≤ INT_MAX) (ha : a.tropas ≤ INT_MAX) :
    simular_batalha a d d_atk d_def =
      if d.tropas ≤ 1 then
        if a.tropas > 1 then ⟨{ a with tropas := a.tropas - 1 }, { d with tropas := 1 }, 1⟩
        else ⟨a, { d with tropas := 0 }, 1⟩
      else ⟨a, { d with tropas := d.tropas - 1 }, 0⟩ := by
  have hw : wrap_int (d.tropas - 1) = d.tropas - 1 :=
    wrap_int_of_range (by unfold int_range; unfold INT_MIN INT_MAX at *; omega)
  unfold simular_batalha
  simp only [hr, if_true, hw]
  by_cases h1 : d.tropas ≤ 1
  · have h2 : (if d.tropas - 1 < 0 then (0 : Int) else d.tropas - 1) = 0 := by
      split_ifs <;> omega
    simp only [h2, h1, if_true]
    by_cases h3 : a.tropas > 1
    · have hwa : wrap_int (a.tropas - 1) = a.tropas - 1 :=
        wrap_int_of_range (by unfold int_range; unfold INT_MIN INT_MAX at *; omega)
      simp only [h3, if_true, hwa]
    · simp only [h3, if_false]
  · have h2 : (if d.tropas - 1 < 0 then (0 : Int) else d.tropas - 1) = d.tropas - 1 := by
      split_ifs <;> omega
    have h3 : ¬ (d.tropas - 1 = 0) := by omega
    simp only [h2, h1, h3, if_false]

/-- Defender-win branch with the arithmetic carried out, for an attacker whose
decrement does not overflow. -/
theorem simular_batalha_perde (a d : Territorio) (d_atk d_def : Int) (hr : d_atk < d_def)
    (ha : INT_MIN < a.tropas ∧ a.tropas ≤ INT_MAX) :
    simular_batalha a d d_atk d_def =
      ⟨{ a with tropas := max (a.tropas - 1) 0 }, d, 0⟩ := by
  have hw : wrap_int (a.tropas - 1) = a.tropas - 1 :=
    wrap_int_of_range (by unfold int_range; unfold INT_MIN INT_MAX at *; omega)
  have hr2 : ¬ (d_atk ≥ d_def) := by omega
  unfold simular_batalha
  simp only [hr2, if_false, hw]
  have h2 : (if a.tropas - 1 < 0 then (0 : Int) else a.tropas - 1) = max (a.tropas - 1) 0 := by
    split_ifs <;> omega
  rw [h2]


/-! ### Substring search -/

theorem ocorre_em_cons_succ (r : CChar → CChar → Prop) (sub cs : CString) (c : CChar)
    (i : Nat) : ocorre_em r sub (c :: cs) (i + 1) ↔ ocorre_em r sub cs i := by
  unfold ocorre_em
  have hk : ∀ k, (c :: cs).getD (i + 1 + k) 0 = cs.getD (i + k) 0 := fun k => by
    rw [show i + 1 + k = (i + k) + 1 by omega, List.getD_cons_succ]
  simp only [hk, List.length_cons]
  constructor
  · rintro ⟨h1, h2⟩
    exact ⟨by omega, h2⟩
  · rintro ⟨h1, h2⟩
    exact ⟨by omega, h2⟩

theorem isPrefixOf_iff_ocorre_em (sub : CString) :
    ∀ s : CString, sub.isPrefixOf s = true ↔ ocorre_em (fun x y => x = y) sub s 0 := by
  induction sub with
  | nil =>
    intro s
    simp [ocorre_em]
  | cons x sub ih =>
    intro s
    cases s with
    | nil => simp [ocorre_em, List.isPrefixOf]
    | cons y s =>
      rw [List.isPrefixOf_cons₂, Bool.and_eq_true, ih s]
      unfold ocorre_em
      simp only [Nat.zero_add, List.length_cons, beq_iff_eq]
      constructor
      · rintro ⟨hxy, hlen, hk⟩
        refine ⟨by omega, fun k hk2 => ?_⟩
        cases k with
        | zero => simp [hxy]
        | succ k =>
          rw [List.getD_cons_succ, List.getD_cons_succ]
          exact hk k (by omega)
      · rintro ⟨hlen, hk⟩
        refine ⟨?_, by omega, fun k hk2 => ?_⟩
        · have h0 := hk 0 (by omega)
          simpa using h0.symm
        · have h1 := hk (k + 1) (by omega)
          rwa [List.getD_cons_succ, List.getD_cons_succ] at h1

/-- The model of `strstr` finds the needle exactly when the haystack contains it. -/
theorem strstr_isSome_iff (sub : CString) :
    ∀ s : CString, (strstr s sub).isSome = true ↔ contem s sub := by
  intro s
  induction s with
  | nil =>
    unfold strstr contem ocorre_em
    by_cases hn : sub = []
    · subst hn
      simp
    · rw [if_neg hn]
      simp only [Option.isSome_none, Bool.false_eq_true, false_iff]
      rintro ⟨i, _, hlen, _⟩
      have : sub.length = 0 := by
        rw [List.length_nil] at hlen
        omega
      exact hn (List.length_eq_zero.mp this)
  | cons c cs ih =>
    unfold strstr
    by_cases hp : sub.isPrefixOf (c :: cs) = true
    · rw [if_pos hp]
      simp only [Option.isSome_some, true_iff]
      exact ⟨0, Nat.zero_le _, (isPrefixOf_iff_ocorre_em sub (c :: cs)).mp hp⟩
    · rw [if_neg hp]
      have hmap : ((strstr cs sub).map (· + 1)).isSome = (strstr cs sub).isSome := by
        cases strstr cs sub <;> rfl
      rw [hmap, ih]
      unfold contem
      constructor
      · rintro ⟨i, hi, ho⟩
        exact ⟨i + 1, by simp; omega, (ocorre_em_cons_succ _ sub cs c i).mpr ho⟩
      · rintro ⟨i, hi, ho⟩
        cases i with
        | zero => exact absurd ((isPrefixOf_iff_ocorre_em sub (c :: cs)).mpr ho) hp
        | succ i =>
          exact ⟨i, by simp at hi; omega, (ocorre_em_cons_succ _ sub cs c i).mp ho⟩

/-! ### Letter case -/

theorem eq_sem_caixa_iff_tolower (x y : Nat) (hy : ¬ (65 ≤ y ∧ y ≤ 90)) :
    eq_sem_caixa x y ↔ tolower x = y := by
  unfold eq_sem_caixa tolower
  unfold CChar at *
  split_ifs with hx <;> constructor <;> intro h <;> omega

theorem verde_minusculas : ∀ c ∈ verde, ¬ (65 ≤ c ∧ c ≤ 90) := by
  decide

/-- Against a needle without capital letters, comparing while ignoring case is comparing
the lower-cased haystack exactly. -/
theorem contem_sem_caixa_iff (s sub : CString) (hsub : ∀ c ∈ sub, ¬ (65 ≤ c ∧ c ≤ 90)) :
    contem_sem_caixa s sub ↔ contem (s.map tolower) sub := by
  have hget : ∀ j, (s.map tolower).getD j 0 = tolower (s.getD j 0) := fun j =>
    List.getD_map s 0 tolower
  have hocc : ∀ i, ocorre_em eq_sem_caixa sub s i ↔
      ocorre_em (fun x y => x = y) sub (s.map tolower) i := by
    intro i
    unfold ocorre_em
    rw [List.length_map]
    refine and_congr_right fun _ => forall_congr' fun k => ?_
    refine imp_congr_right fun hk => ?_
    rw [hget]
    refine eq_sem_caixa_iff_tolower _ _ (hsub _ ?_)
    rw [List.getD_eq_getElem sub 0 hk]
    exact List.getElem_mem hk
  unfold contem_sem_caixa contem
  rw [List.length_map]
  exact exists_congr fun i => and_congr_right fun _ => hocc i

/-! ### Mission checks -/

theorem verificar_destruir_verde_cons (t : Territorio) (resto : List Territorio) :
    verificar_destruir_verde (t :: resto) =
      if (strstr ((strncpy t.cor (MAX_COR - 1)).map tolower) verde).isSome = true then
        if t.tropas > 0 then 0 else verificar_destruir_verde resto
      else verificar_destruir_verde resto :=
  rfl

/-- The loop of `verificar_destruir_verde` returns 1 exactly when no territory passes
both of its tests. -/
theorem verificar_destruir_verde_eq_one_iff (lista : List Territorio) :
    verificar_destruir_verde lista = 1 ↔
      ∀ t ∈ lista,
        (strstr ((strncpy t.cor (MAX_COR - 1)).map tolower) verde).isSome = true →
          t.tropas ≤ 0 := by
  induction lista with
  | nil => simp [verificar_destruir_verde]
  | cons t resto ih =>
    rw [List.forall_mem_cons, ← ih, verificar_destruir_verde_cons]
    by_cases hs : (strstr ((strncpy t.cor (MAX_COR - 1)).map tolower) verde).isSome = true
    · by_cases ht : t.tropas > 0
      · rw [if_pos hs, if_pos ht]
        constructor
        · intro h
          exact absurd h (by decide)
        · rintro ⟨h, _⟩
          have := h hs
          omega
      · rw [if_pos hs, if_neg ht]
        constructor
        · intro h
          exact ⟨fun _ => by omega, h⟩
        · rintro ⟨_, h⟩
          exact h
    · rw [if_neg hs]
      constructor
      · intro h
        exact ⟨fun h2 => absurd h2 hs, h⟩
      · rintro ⟨_, h⟩
        exact h

theorem verificar_destruir_verde_zero_or_one (lista : List Territorio) :
    verificar_destruir_verde lista = 0 ∨ verificar_destruir_verde lista = 1 := by
  induction lista with
  | nil => exact Or.inr rfl
  | cons t resto ih =>
    rw [verificar_destruir_verde_cons]
    split_ifs
    · exact Or.inl rfl
    · exact ih
    · exact ih

/-- The counting loops of the source compute a `countP`. -/
theorem foldl_conta (p : Territorio → Prop) [DecidablePred p] (lista : List Territorio) :
    ∀ acc : Int,
      lista.foldl (fun cnt t => if p t then cnt + 1 else cnt) acc =
        acc + (lista.countP (fun t => decide (p t)) : Nat) := by
  induction lista with
  | nil =>
    intro acc
    simp
  | cons t resto ih =>
    intro acc
    rw [List.foldl_cons, ih, List.countP_cons]
    by_cases h : p t
    · simp only [h, if_true, decide_True]
      push_cast
      omega
    · simp only [h, if_false, decide_False]
      simp

/-- What the attack step of `nivel_mestre` needs to know about a round: colours are not
touched, and without a conquest the defender does not gain troops. -/
theorem simular_batalha_cor (a d : Territorio) (d_atk d_def : Int)
    (ha : 0 < a.tropas ∧ a.tropas ≤ INT_MAX) (hd : 0 ≤ d.tropas ∧ d.tropas ≤ INT_MAX) :
    (simular_batalha a d d_atk d_def).atacante.cor = a.cor ∧
      (simular_batalha a d d_atk d_def).defensor.cor = d.cor ∧
      ((simular_batalha a d d_atk d_def).retorno = 0 →
        (simular_batalha a d d_atk d_def).defensor.tropas ≤ d.tropas) := by
  rcases le_or_lt d_def d_atk with hr | hr
  · rw [simular_batalha_vence a d d_atk d_def hr
      ⟨by unfold INT_MIN; omega, hd.2⟩ ha.2]
    by_cases h1 : d.tropas ≤ 1
    · by_cases h2 : a.tropas > 1
      · rw [if_pos h1, if_pos h2]
        exact ⟨rfl, rfl, fun h => absurd (show (1 : Int) = 0 from h) (by decide)⟩
      · rw [if_pos h1, if_neg h2]
        exact ⟨rfl, rfl, fun h => absurd (show (1 : Int) = 0 from h) (by decide)⟩
    · rw [if_neg h1]
      refine ⟨rfl, rfl, fun _ => ?_⟩
      show d.tropas - 1 ≤ d.tropas
      omega
  · rw [simular_batalha_perde a d d_atk d_def hr ⟨by unfold INT_MIN; omega, ha.2⟩]
    exact ⟨rfl, rfl, fun _ => le_refl _⟩

/-- C1: after one call of `simular_batalha` on an attacker with troops > 0 and a defender
with troops >= 0 (both representable `int`s), for every pair of dice, the troops of the
attacker and of the defender are both >= 0. -/
theorem c1_tropas_nao_negativas (a d : Territorio) (d_atk d_def : Int)
    (ha : 0 < a.tropas ∧ a.tropas ≤ INT_MAX) (hd : 0 ≤ d.tropas ∧ d.tropas ≤ INT_MAX) :
    0 ≤ (simular_batalha a d d_atk d_def).atacante.tropas ∧
      0 ≤ (simular_batalha a d d_atk d_def).defensor.tropas := by
  rcases le_or_lt d_def d_atk with hr | hr
  · rw [simular_batalha_vence a d d_atk d_def hr
      ⟨by unfold INT_MIN; omega, hd.2⟩ ha.2]
    split_ifs <;> simp <;> omega
  · rw [simular_batalha_perde a d d_atk d_def hr ⟨by unfold INT_MIN; omega, ha.2⟩]
    simp
    omega

/-- Instance of C1: attacker 3, defender 1, dice (6,1). -/
theorem c1_witness :
    0 ≤ (simular_batalha (territorio "Aldea" "Verde" 3) (territorio "Vale" "Verde" 1)
        6 1).atacante.tropas ∧
      0 ≤ (simular_batalha (territorio "Aldea" "Verde" 3) (territorio "Vale" "Verde" 1)
        6 1).defensor.tropas :=
  c1_tropas_nao_negativas (territorio "Aldea" "Verde" 3) (territorio "Vale" "Verde" 1) 6 1
    (by decide) (by decide)

/-- C2, as stated, fails: attacker 3, defender 1, dice (6,1) reports a conquest although
the defender's troops in the state the call leaves behind are 1, not 0. -/
theorem c2_contraexemplo :
    ¬ ((simular_batalha (territorio "Aldea" "Verde" 3) (territorio "Vale" "Verde" 1)
          6 1).retorno = 1 ↔
        ((6 : Int) ≥ 1 ∧
          (simular_batalha (territorio "Aldea" "Verde" 3) (territorio "Vale" "Verde" 1)
            6 1).defensor.tropas = 0)) := by
  decide

/-- C2 (amended): on an attacker with troops > 0 and a defender with troops >= 0,
`simular_batalha` returns 1 exactly when the attacker won the round and the defender's
troops right after the one-troop loss, before any conquest transfer, are 0 (the defender
had at most 1 troop); in every other case it returns 0. When it returns 1 the troop count
the call leaves on the defender is 1 if the attacker had more than 1 troop and 0 otherwise;
an attacker win that leaves the defender at 0 is always reported as a conquest. -/
theorem c2_conquista_sse (a d : Territorio) (d_atk d_def : Int)
    (ha : 0 < a.tropas ∧ a.tropas ≤ INT_MAX) (hd : 0 ≤ d.tropas ∧ d.tropas ≤ INT_MAX) :
    ((simular_batalha a d d_atk d_def).retorno = 1 ↔
        (d_atk ≥ d_def ∧ max (d.tropas - 1) 0 = 0)) ∧
      ((simular_batalha a d d_atk d_def).retorno ≠ 1 →
        (simular_batalha a d d_atk d_def).retorno = 0) ∧
      ((simular_batalha a d d_atk d_def).retorno = 1 →
        (simular_batalha a d d_atk d_def).defensor.tropas = if a.tropas > 1 then 1 else 0) ∧
      (d_atk ≥ d_def ∧ (simular_batalha a d d_atk d_def).defensor.tropas = 0 →
        (simular_batalha a d d_atk d_def).retorno = 1) := by
  rcases le_or_lt d_def d_atk with hr | hr
  · rw [simular_batalha_vence a d d_atk d_def hr
      ⟨by unfold INT_MIN; omega, hd.2⟩ ha.2]
    by_cases h1 : d.tropas ≤ 1
    · by_cases h2 : a.tropas > 1
      · rw [if_pos h1, if_pos h2, if_pos h2]
        exact ⟨⟨fun _ => ⟨hr, by omega⟩, fun _ => rfl⟩, fun h => absurd rfl h,
          fun _ => rfl, fun _ => rfl⟩
      · rw [if_pos h1, if_neg h2, if_neg h2]
        exact ⟨⟨fun _ => ⟨hr, by omega⟩, fun _ => rfl⟩, fun h => absurd rfl h,
          fun _ => rfl, fun _ => rfl⟩
    · rw [if_neg h1]
      refine ⟨⟨fun h => ?_, fun h => ?_⟩, fun _ => rfl, fun h => ?_, fun h => ?_⟩
      · exact absurd (show (0 : Int) = 1 from h) (by decide)
      · omega
      · exact absurd (show (0 : Int) = 1 from h) (by decide)
      · have h3 : d.tropas - 1 = 0 := h.2
        omega
  · rw [simular_batalha_perde a d d_atk d_def hr ⟨by unfold INT_MIN; omega, ha.2⟩]
    refine ⟨⟨fun h => ?_, fun h => ?_⟩, fun _ => rfl, fun h => ?_, fun h => ?_⟩
    · exact absurd (show (0 : Int) = 1 from h) (by decide)
    · omega
    · exact absurd (show (0 : Int) = 1 from h) (by decide)
    · omega

/-- Instance of the amended C2: attacker 3, defender 1, dice (6,1) is a conquest that
leaves 1 troop on the defender. -/
theorem c2_witness :
    (simular_batalha (territorio "Aldea" "Verde" 3) (territorio "Vale" "Verde" 1)
        6 1).retorno = 1 ∧
      (simular_batalha (territorio "Aldea" "Verde" 3) (territorio "Vale" "Verde" 1)
        6 1).defensor.tropas = 1 :=
  have h := c2_conquista_sse (territorio "Aldea" "Verde" 3) (territorio "Vale" "Verde" 1)
    6 1 (by decide) (by decide)
  ⟨h.1.2 (by decide), h.2.2.1 (h.1.2 (by decide))⟩

/-- C3: whenever `simular_batalha` reports a conquest (returns 1), an attacker that had
more than 1 troop ends with exactly one fewer and the defender ends with exactly 1; an
attacker that had exactly 1 troop keeps it and the defender ends with 0. -/
theorem c3_transferencia (a d : Territorio) (d_atk d_def : Int)
    (ha : a.tropas ≤ INT_MAX)
    (hc : (simular_batalha a d d_atk d_def).retorno = 1) :
    (a.tropas > 1 →
        (simular_batalha a d d_atk d_def).atacante.tropas = a.tropas - 1 ∧
          (simular_batalha a d d_atk d_def).defensor.tropas = 1) ∧
      (a.tropas = 1 →
        (simular_batalha a d d_atk d_def).atacante.tropas = a.tropas ∧
          (simular_batalha a d d_atk d_def).defensor.tropas = 0) := by
  have hwa : a.tropas > 1 → wrap_int (a.tropas - 1) = a.tropas - 1 := fun h =>
    wrap_int_of_range (by unfold int_range INT_MIN INT_MAX; unfold INT_MAX at ha; omega)
  unfold simular_batalha at hc ⊢
  by_cases hr : d_atk ≥ d_def
  · simp only [hr, if_true] at hc ⊢
    by_cases h0 : (if wrap_int (d.tropas - 1) < 0 then 0 else wrap_int (d.tropas - 1)) = 0
    · simp only [h0, if_true] at hc ⊢
      by_cases h2 : a.tropas > 1
      · rw [if_pos h2, hwa h2]
        exact ⟨fun _ => ⟨rfl, rfl⟩, fun h => by omega⟩
      · rw [if_neg h2]
        exact ⟨fun h => absurd h h2, fun _ => ⟨rfl, rfl⟩⟩
    · simp only [h0, if_false] at hc
      exact absurd hc (by decide)
  · simp only [hr, if_false] at hc
    exact absurd hc (by decide)

/-- Instances of C3: attacker 3, defender 1, dice (6,1) gives attacker 2, defender 1;
attacker 1, defender 1, dice (3,3) gives attacker 1, defender 0. -/
theorem c3_witness :
    ((simular_batalha (territorio "Aldea" "Verde" 3) (territorio "Vale" "Verde" 1)
          6 1).atacante.tropas = 2 ∧
        (simular_batalha (territorio "Aldea" "Verde" 3) (territorio "Vale" "Verde" 1)
          6 1).defensor.tropas = 1) ∧
      ((simular_batalha (territorio "Vale" "Verde" 1) (territorio "Vale" "Azul" 1)
          3 3).atacante.tropas = 1 ∧
        (simular_batalha (territorio "Vale" "Verde" 1) (territorio "Vale" "Azul" 1)
          3 3).defensor.tropas = 0) :=
  ⟨(c3_transferencia (territorio "Aldea" "Verde" 3) (territorio "Vale" "Verde" 1) 6 1
      (by decide) (by decide)).1 (by decide),
    (c3_transferencia (territorio "Vale" "Verde" 1) (territorio "Vale" "Azul" 1) 3 3
      (by decide) (by decide)).2 (by decide)⟩

/-- C4: for every pair of dice with `d_atk >= d_def`, ties included, `simular_batalha`
resolves the round as an attacker win. The outcome is that of the clear win (6,1); the
defender is charged one troop, clamped at 0, and the attacker none, so the two together
hold `a + max (d - 1) 0` troops afterwards; the attacker's record changes only when a
conquest moves one of its troops onto the defender; without a conquest the defender ends
with `max (d - 1) 0`; and a defender that had at least 2 troops ends with exactly one
fewer, the attacker's troops unchanged, no conquest reported. -/
theorem c4_empate_favorece_atacante (a d : Territorio) (d_atk d_def : Int)
    (hr : d_atk ≥ d_def) (ha : a.tropas ≤ INT_MAX)
    (hd : INT_MIN < d.tropas ∧ d.tropas ≤ INT_MAX) :
    simular_batalha a d d_atk d_def = simular_batalha a d 6 1 ∧
      (simular_batalha a d d_atk d_def).atacante.tropas +
          (simular_batalha a d d_atk d_def).defensor.tropas =
        a.tropas + max (d.tropas - 1) 0 ∧
      ((simular_batalha a d d_atk d_def).atacante = a ∨
        ((simular_batalha a d d_atk d_def).retorno = 1 ∧
          (simular_batalha a d d_atk d_def).atacante.tropas = a.tropas - 1 ∧
          (simular_batalha a d d_atk d_def).defensor.tropas = 1)) ∧
      ((simular_batalha a d d_atk d_def).retorno = 0 →
        (simular_batalha a d d_atk d_def).defensor.tropas = max (d.tropas - 1) 0) ∧
      (2 ≤ d.tropas →
        (simular_batalha a d d_atk d_def).defensor.tropas = d.tropas - 1 ∧
          (simular_batalha a d d_atk d_def).atacante.tropas = a.tropas ∧
          (simular_batalha a d d_atk d_def).retorno = 0) := by
  refine ⟨?_, ?_⟩
  · rw [simular_batalha_vence a d d_atk d_def hr hd ha,
      simular_batalha_vence a d 6 1 (by decide) hd ha]
  · rw [simular_batalha_vence a d d_atk d_def hr hd ha]
    by_cases h1 : d.tropas ≤ 1
    · by_cases h2 : a.tropas > 1
      · rw [if_pos h1, if_pos h2]
        refine ⟨?_, Or.inr ⟨rfl, rfl, rfl⟩,
          fun h => absurd (show (1 : Int) = 0 from h) (by decide), fun h => ?_⟩
        · show a.tropas - 1 + 1 = a.tropas + max (d.tropas - 1) 0
          omega
        · omega
      · rw [if_pos h1, if_neg h2]
        refine ⟨?_, Or.inl rfl,
          fun h => absurd (show (1 : Int) = 0 from h) (by decide), fun h => ?_⟩
        · show a.tropas + 0 = a.tropas + max (d.tropas - 1) 0
          omega
        · omega
    · rw [if_neg h1]
      refine ⟨?_, Or.inl rfl, fun _ => ?_, fun _ => ⟨rfl, rfl, rfl⟩⟩
      · show a.tropas + (d.tropas - 1) = a.tropas + max (d.tropas - 1) 0
        omega
      · show d.tropas - 1 = max (d.tropas - 1) 0
        omega

/-- Instance of C4: attacker 4, defender 3, tie (3,3) gives defender 2, attacker 4, no
conquest. -/
theorem c4_witness :
    (simular_batalha (territorio "Montanha" "Vermelho" 4) (territorio "Aldea" "Verde" 3)
        3 3).defensor.tropas = 3 - 1 ∧
      (simular_batalha (territorio "Montanha" "Vermelho" 4) (territorio "Aldea" "Verde" 3)
        3 3).atacante.tropas = 4 ∧
      (simular_batalha (territorio "Montanha" "Vermelho" 4) (territorio "Aldea" "Verde" 3)
        3 3).retorno = 0 :=
  (c4_empate_favorece_atacante (territorio "Montanha" "Vermelho" 4)
    (territorio "Aldea" "Verde" 3) 3 3 (by decide) (by decide) (by decide)).2.2.2.2 (by decide)

/-- C5: for every pair of dice with `d_atk < d_def`, every attacker (whose decrement is
defined, i.e. troops above `INT_MIN`) and every defender, `simular_batalha` leaves the
attacker with `max (troops - 1) 0` troops, leaves the defender (troops, name, colour)
unchanged and reports no conquest. -/
theorem c5_defensor_vence (a d : Territorio) (d_atk d_def : Int)
    (hr : d_atk < d_def) (ha : INT_MIN < a.tropas ∧ a.tropas ≤ INT_MAX) :
    (simular_batalha a d d_atk d_def).atacante.tropas = max (a.tropas - 1) 0 ∧
      (simular_batalha a d d_atk d_def).defensor.tropas = d.tropas ∧
      (simular_batalha a d d_atk d_def).defensor.nome = d.nome ∧
      (simular_batalha a d d_atk d_def).defensor.cor = d.cor ∧
      (simular_batalha a d d_atk d_def).defensor = d ∧
      (simular_batalha a d d_atk d_def).retorno = 0 := by
  rw [simular_batalha_perde a d d_atk d_def hr ha]
  exact ⟨rfl, rfl, rfl, rfl, rfl, rfl⟩

/-- Instance of C5: attacker 2, defender 5, dice (2,5) gives attacker 1, defender 5, no
conquest. -/
theorem c5_witness :
    (simular_batalha (territorio "Planicie" "Azul" 2) (territorio "Fortaleza" "Amarelo" 5)
        2 5).atacante.tropas = 1 ∧
      (simular_batalha (territorio "Planicie" "Azul" 2) (territorio "Fortaleza" "Amarelo" 5)
        2 5).defensor.tropas = 5 ∧
      (simular_batalha (territorio "Planicie" "Azul" 2) (territorio "Fortaleza" "Amarelo" 5)
        2 5).retorno = 0 :=
  have h := c5_defensor_vence (territorio "Planicie" "Azul" 2)
    (territorio "Fortaleza" "Amarelo" 5) 2 5 (by decide) (by decide)
  ⟨h.1, h.2.1, h.2.2.2.2.2⟩

/-- C10: combat never creates troops. For an attacker with `a >= 1` troops and a defender
with `d >= 0` troops, whatever the dice, the troops of the two after `simular_batalha`
add up to at most `a + d`, and to exactly `a + d - 1` when `d >= 1`. -/
theorem c10_nao_cria_tropas (a d : Territorio) (d_atk d_def : Int)
    (ha : 1 ≤ a.tropas ∧ a.tropas ≤ INT_MAX) (hd : 0 ≤ d.tropas ∧ d.tropas ≤ INT_MAX) :
    (simular_batalha a d d_atk d_def).atacante.tropas +
          (simular_batalha a d d_atk d_def).defensor.tropas ≤ a.tropas + d.tropas ∧
      (1 ≤ d.tropas →
        (simular_batalha a d d_atk d_def).atacante.tropas +
          (simular_batalha a d d_atk d_def).defensor.tropas = a.tropas + d.tropas - 1) := by
  rcases le_or_lt d_def d_atk with hr | hr
  · rw [simular_batalha_vence a d d_atk d_def hr
      ⟨by unfold INT_MIN; omega, hd.2⟩ ha.2]
    by_cases h1 : d.tropas ≤ 1
    · by_cases h2 : a.tropas > 1
      · rw [if_pos h1, if_pos h2]
        show a.tropas - 1 + 1 ≤ a.tropas + d.tropas ∧
          (1 ≤ d.tropas → a.tropas - 1 + 1 = a.tropas + d.tropas - 1)
        omega
      · rw [if_pos h1, if_neg h2]
        show a.tropas + 0 ≤ a.tropas + d.tropas ∧
          (1 ≤ d.tropas → a.tropas + 0 = a.tropas + d.tropas - 1)
        omega
    · rw [if_neg h1]
      show a.tropas + (d.tropas - 1) ≤ a.tropas + d.tropas ∧
        (1 ≤ d.tropas → a.tropas + (d.tropas - 1) = a.tropas + d.tropas - 1)
      omega
  · rw [simular_batalha_perde a d d_atk d_def hr ⟨by unfold INT_MIN; omega, ha.2⟩]
    show max (a.tropas - 1) 0 + d.tropas ≤ a.tropas + d.tropas ∧
      (1 ≤ d.tropas → max (a.tropas - 1) 0 + d.tropas = a.tropas + d.tropas - 1)
    omega

/-- Instance of C10: attacker 3, defender 1, dice (6,1) leaves 3 troops in total. -/
theorem c10_witness :
    (simular_batalha (territorio "Aldea" "Verde" 3) (territorio "Vale" "Verde" 1)
          6 1).atacante.tropas +
        (simular_batalha (territorio "Aldea" "Verde" 3) (territorio "Vale" "Verde" 1)
          6 1).defensor.tropas = 3 + 1 - 1 :=
  (c10_nao_cria_tropas (territorio "Aldea" "Verde" 3) (territorio "Vale" "Verde" 1) 6 1
    (by decide) (by decide)).2 (by decide)

/-- C6: for every registry whose colours fit their `MAX_COR` buffer and whose troops are
all >= 0, `verificar_missao` with `MISS_DESTRUIR_VERDE` returns 1 if and only if every
territory whose colour contains "verde", compared ignoring letter case, has troops = 0,
and returns 0 otherwise (it returns what `verificar_destruir_verde` returns); in particular it returns 1 when no colour matches, and on the
empty registry. -/
theorem c6_destruir_verde (lista : List Territorio)
    (hcor : ∀ t ∈ lista, t.cor.length < MAX_COR) (htr : ∀ t ∈ lista, 0 ≤ t.tropas) :
    verificar_missao lista MissaoTipo.MISS_DESTRUIR_VERDE = verificar_destruir_verde lista ∧
      (verificar_missao lista MissaoTipo.MISS_DESTRUIR_VERDE = 1 ↔
        ∀ t ∈ lista, contem_sem_caixa t.cor verde → t.tropas = 0) ∧
      (verificar_missao lista MissaoTipo.MISS_DESTRUIR_VERDE ≠ 1 →
        verificar_missao lista MissaoTipo.MISS_DESTRUIR_VERDE = 0) ∧
      ((∀ t ∈ lista, ¬ contem_sem_caixa t.cor verde) →
        verificar_missao lista MissaoTipo.MISS_DESTRUIR_VERDE = 1) ∧
      verificar_missao [] MissaoTipo.MISS_DESTRUIR_VERDE = 1 := by
  have hvm : ∀ l : List Territorio,
      verificar_missao l MissaoTipo.MISS_DESTRUIR_VERDE = verificar_destruir_verde l :=
    fun l => by unfold verificar_missao; rw [if_pos rfl]
  have hmatch : ∀ t ∈ lista,
      ((strstr ((strncpy t.cor (MAX_COR - 1)).map tolower) verde).isSome = true ↔
        contem_sem_caixa t.cor verde) := by
    intro t ht
    have hlen : t.cor.length ≤ MAX_COR - 1 := by
      have := hcor t ht
      omega
    unfold strncpy
    rw [List.take_of_length_le hlen, strstr_isSome_iff,
      contem_sem_caixa_iff t.cor verde verde_minusculas]
  have hiff : verificar_destruir_verde lista = 1 ↔
      ∀ t ∈ lista, contem_sem_caixa t.cor verde → t.tropas = 0 := by
    rw [verificar_destruir_verde_eq_one_iff]
    constructor
    · intro h t ht hc
      have h1 := h t ht ((hmatch t ht).mpr hc)
      have h2 := htr t ht
      omega
    · intro h t ht hs
      have h1 := h t ht ((hmatch t ht).mp hs)
      omega
  rw [hvm lista, hvm []]
  refine ⟨rfl, hiff, fun hne => ?_, fun hno => ?_, rfl⟩
  · rcases verificar_destruir_verde_zero_or_one lista with h | h
    · exact h
    · exact absurd h hne
  · exact hiff.mpr fun t ht hc => absurd hc (hno t ht)

/-- Instances of C6: the demo registry, where Verde still holds troops, fails the mission;
the same map with both Verde territories emptied satisfies it. -/
theorem c6_witness :
    verificar_missao (inicializar_automatico QTD_PADRAO) MissaoTipo.MISS_DESTRUIR_VERDE = 0 ∧
      verificar_missao
        [territorio "Aldea" "Verde" 0, territorio "Montanha" "Vermelho" 4,
          territorio "Planicie" "Azul" 2, territorio "Fortaleza" "Amarelo" 5,
          territorio "Vale" "Verde" 0] MissaoTipo.MISS_DESTRUIR_VERDE = 1 :=
  ⟨(c6_destruir_verde (inicializar_automatico QTD_PADRAO) (by decide) (by decide)).2.2.1
      (by decide),
    (c6_destruir_verde
      [territorio "Aldea" "Verde" 0, territorio "Montanha" "Vermelho" 4,
        territorio "Planicie" "Azul" 2, territorio "Fortaleza" "Amarelo" 5,
        territorio "Vale" "Verde" 0] (by decide) (by decide)).2.1.mpr (by decide)⟩

/-- C7: for every registry, `verificar_missao` with `MISS_CONQUISTAR_3` returns 1 if and
only if the number of territories with troops > 0, whatever their colour, is at least 3,
and returns 0 otherwise; that number is the value of `contar_territorios_conquistados`.
So it returns 1 with exactly 3 troop-holding territories and 0 with exactly 2. -/
theorem c7_conquistar_3 (lista : List Territorio) :
    (verificar_missao lista MissaoTipo.MISS_CONQUISTAR_3 = 1 ↔ 3 ≤ com_tropas lista) ∧
      (verificar_missao lista MissaoTipo.MISS_CONQUISTAR_3 ≠ 1 →
        verificar_missao lista MissaoTipo.MISS_CONQUISTAR_3 = 0) ∧
      contar_territorios_conquistados lista = (com_tropas lista : Int) ∧
      (verificar_missao lista MissaoTipo.MISS_CONQUISTAR_3 = 1 ↔
        contar_territorios_conquistados lista ≥ 3) ∧
      (com_tropas lista = 3 → verificar_missao lista MissaoTipo.MISS_CONQUISTAR_3 = 1) ∧
      (com_tropas lista = 2 → verificar_missao lista MissaoTipo.MISS_CONQUISTAR_3 = 0) := by
  have hcnt : lista.foldl (fun (cnt : Int) t => if t.tropas > 0 then cnt + 1 else cnt) 0 =
      (com_tropas lista : Int) := by
    rw [foldl_conta (fun t => t.tropas > 0) lista 0]
    unfold com_tropas
    simp
  have hvm : verificar_missao lista MissaoTipo.MISS_CONQUISTAR_3 =
      if (com_tropas lista : Int) ≥ 3 then 1 else 0 := by
    unfold verificar_missao
    rw [if_neg (by decide), if_pos rfl]
    simp only [hcnt]
  have hc : contar_territorios_conquistados lista = (com_tropas lista : Int) := by
    unfold contar_territorios_conquistados
    exact hcnt
  rw [hvm, hc]
  by_cases h3 : (com_tropas lista : Int) ≥ 3
  · rw [if_pos h3]
    refine ⟨⟨fun _ => by omega, fun _ => rfl⟩, fun h => absurd rfl h, rfl,
      ⟨fun _ => h3, fun _ => rfl⟩, fun _ => rfl, fun h => by omega⟩
  · rw [if_neg h3]
    refine ⟨⟨fun h => absurd h (by decide), fun h => by omega⟩, fun _ => rfl, rfl,
      ⟨fun h => absurd h (by decide), fun h => absurd h h3⟩, fun h => by omega, fun _ => rfl⟩

/-- Instances of C7: three troop-holding territories satisfy the mission, two do not. -/
theorem c7_witness :
    verificar_missao [territorio "Aldea" "Verde" 3, territorio "Montanha" "Vermelho" 0,
        territorio "Planicie" "Azul" 2, territorio "Fortaleza" "Amarelo" 0,
        territorio "Vale" "Verde" 1] MissaoTipo.MISS_CONQUISTAR_3 = 1 ∧
      verificar_missao [territorio "Aldea" "Verde" 3, territorio "Montanha" "Vermelho" 0,
        territorio "Planicie" "Azul" 2, territorio "Fortaleza" "Amarelo" 0,
        territorio "Vale" "Verde" 0] MissaoTipo.MISS_CONQUISTAR_3 = 0 :=
  ⟨(c7_conquistar_3 [territorio "Aldea" "Verde" 3, territorio "Montanha" "Vermelho" 0,
        territorio "Planicie" "Azul" 2, territorio "Fortaleza" "Amarelo" 0,
        territorio "Vale" "Verde" 1]).2.2.2.2.1 (by decide),
    (c7_conquistar_3 [territorio "Aldea" "Verde" 3, territorio "Montanha" "Vermelho" 0,
        territorio "Planicie" "Azul" 2, territorio "Fortaleza" "Amarelo" 0,
        territorio "Vale" "Verde" 0]).2.2.2.2.2 (by decide)⟩

/-- C8, as stated, fails: a territory coloured "Verde" holding 3 troops is not counted by
`contar_conquistados_por` for `cor = "verde"`, although its colour contains "verde" when
letter case is ignored. -/
theorem c8_contraexemplo :
    contar_conquistados_por [territorio "Aldea" "Verde" 3] (ascii "verde") ≠
        (com_tropas_da_cor_sem_caixa [territorio "Aldea" "Verde" 3] (ascii "verde") : Int) ∧
      contar_conquistados_por [territorio "Aldea" "Verde" 3] (ascii "verde") = 0 ∧
      com_tropas_da_cor_sem_caixa [territorio "Aldea" "Verde" 3] (ascii "verde") = 1 := by
  decide

/-- C8 (amended): for every registry and every colour string `cor`,
`contar_conquistados_por` equals the number of territories with troops > 0 whose colour
contains `cor` as a substring compared exactly, letter case included. -/
theorem c8_conta_cor_exata (lista : List Territorio) (cor : CString) :
    contar_conquistados_por lista cor = (com_tropas_da_cor lista cor : Int) := by
  unfold contar_conquistados_por com_tropas_da_cor
  rw [foldl_conta (fun t => (strstr t.cor cor).isSome = true ∧ t.tropas > 0) lista 0,
    Int.zero_add]
  congr 2
  funext t
  exact decide_eq_decide.mpr (by rw [strstr_isSome_iff]; exact and_comm)

/-- C9: once the eliminate-Verde mission is satisfied it stays satisfied. On a registry
with all troops >= 0 on which `verificar_destruir_verde` returns 1, every attack step of
`nivel_mestre` (`simular_batalha` on two distinct in-range territories, the attacker
holding troops, then the attacker's colour copied onto the defender when a conquest is
reported), for every pair of dice, yields a registry on which `verificar_destruir_verde`
still returns 1. A rejected request leaves the registry, hence the mission, as it was. -/
theorem c9_missao_verde_persiste (lista : List Territorio) (idx_atk idx_def : Int)
    (d_atk d_def : Int) (htr : ∀ t ∈ lista, 0 ≤ t.tropas ∧ t.tropas ≤ INT_MAX)
    (hm : verificar_destruir_verde lista = 1) :
    verificar_destruir_verde (nivel_mestre_atacar lista idx_atk idx_def d_atk d_def) = 1 := by
  unfold nivel_mestre_atacar
  simp only
  by_cases h1 : idx_atk < 0 ∨ idx_atk ≥ (lista.length : Int) ∨ idx_def < 0 ∨
      idx_def ≥ (lista.length : Int)
  · rw [if_pos h1]
    exact hm
  rw [if_neg h1]
  by_cases h2 : idx_atk = idx_def
  · rw [if_pos h2]
    exact hm
  rw [if_neg h2]
  split
  · rename_i a d hA hD
    by_cases h3 : a.tropas ≤ 0
    · rw [if_pos h3]
      exact hm
    rw [if_neg h3]
    have haL : a ∈ lista := List.getElem?_mem hA
    have hdL : d ∈ lista := List.getElem?_mem hD
    have hm2 := (verificar_destruir_verde_eq_one_iff lista).mp hm
    have hfat := simular_batalha_cor a d d_atk d_def ⟨by omega, (htr a haL).2⟩ (htr d hdL)
    have hna : ¬ (strstr ((strncpy a.cor (MAX_COR - 1)).map tolower) verde).isSome = true :=
      fun h => h3 (hm2 a haL h)
    rw [verificar_destruir_verde_eq_one_iff]
    by_cases hc : (simular_batalha a d d_atk d_def).retorno ≠ 0
    · rw [if_pos hc, List.set_set]
      intro t ht hs
      rcases List.mem_or_eq_of_mem_set ht with ht1 | ht1
      · rcases List.mem_or_eq_of_mem_set ht1 with ht2 | ht2
        · exact hm2 t ht2 hs
        · rw [ht2, hfat.1] at hs
          exact absurd hs hna
      · rw [ht1] at hs
        have hs2 : (strstr ((strncpy (strncpy (simular_batalha a d d_atk d_def).atacante.cor
            (MAX_COR - 1)) (MAX_COR - 1)).map tolower) verde).isSome = true := hs
        unfold strncpy at hs2 hna
        rw [List.take_take, Nat.min_self, hfat.1] at hs2
        exact absurd hs2 hna
    · rw [if_neg hc]
      have hc0 : (simular_batalha a d d_atk d_def).retorno = 0 := not_not.mp hc
      intro t ht hs
      rcases List.mem_or_eq_of_mem_set ht with ht1 | ht1
      · rcases List.mem_or_eq_of_mem_set ht1 with ht2 | ht2
        · exact hm2 t ht2 hs
        · rw [ht2, hfat.1] at hs
          exact absurd hs hna
      · rw [ht1] at hs ⊢
        rw [hfat.2.1] at hs
        have hd0 := hm2 d hdL hs
        have hle := hfat.2.2 hc0
        omega
  · exact hm

/-- Instance of C9: Verde is eliminated, Montanha (Vermelho, 4 troops) conquers the empty
Aldea with dice (6,1); the mission is still satisfied. -/
theorem c9_witness :
    verificar_destruir_verde
        (nivel_mestre_atacar
          [territorio "Aldea" "Verde" 0, territorio "Montanha" "Vermelho" 4,
            territorio "Planicie" "Azul" 2, territorio "Fortaleza" "Amarelo" 5,
            territorio "Vale" "Verde" 0] 1 0 6 1) = 1 :=
  c9_missao_verde_persiste
    [territorio "Aldea" "Verde" 0, territorio "Montanha" "Vermelho" 4,
      territorio "Planicie" "Azul" 2, territorio "Fortaleza" "Amarelo" 5,
      territorio "Vale" "Verde" 0] 1 0 6 1 (by decide) (by decide)

end War
